import Mathlib

/-!
Verification development for the sleeper-live-activity backend
(`SleeperLiveActivityApi/main.py`).

The Python module keeps all mutable tables in a module-level `AppState`
object and drives them from scheduler jobs and HTTP handlers.  The shallow
embedding below translates the relevant functions into pure Lean functions:

* Python dicts become association lists (`Dict`) with lookup semantics
  (`dict.get(k, d)` becomes `Dict.getD`, `dict[k] = v` becomes
  `Dict.insert`, `del dict[k]` becomes `Dict.erase`).
* Python floats become `ℚ`; `round(x, 2)` becomes `round2` (the half-even
  tie behaviour of Python's `round` is not observable in any property
  proved here, so Mathlib's `round` is used for the integer rounding step).
* `datetime` / `time.time()` values become `ℚ` seconds.
* Network collaborators (`get_cached_league_rosters`,
  `sleeper_client.get_matchups`, the stats snapshot owned by
  `OptimizedPlayerStatsManager`) are abstracted as read-only fields of an
  `Env` record when a function only reads their results; the cache layer
  itself (`get_cached_league_rosters` / `get_cached_league_info`) is
  modelled separately, state-passing style, over an explicit fetch oracle.
* JSON dicts with possibly-missing or possibly-`None` keys become
  structures with `Option` fields; Python truthiness of strings is
  `truthyOptStr`.
* The APScheduler job registry entry `"game_end_checker"` is modelled as
  the boolean field `ending_checker_scheduled`.
* Exception handlers that swallow errors and fall back to a default are
  modelled by the corresponding `match`/default branches.
-/

namespace SleeperLA

/-- Association-list model of a Python dict: lookup finds the first
binding, insertion replaces any existing binding for the key. -/
abbrev Dict (α β : Type) := List (α × β)

def Dict.get? {α β : Type} [BEq α] : Dict α β → α → Option β
  | [], _ => none
  | p :: rest, k => if p.1 == k then some p.2 else Dict.get? rest k

/-- `d.get(k, v)` in Python. -/
def Dict.getD {α β : Type} [BEq α] (d : Dict α β) (k : α) (v : β) : β :=
  (Dict.get? d k).getD v

/-- `del d[k]` (also a no-op when the key is absent, the Python callers
guard with a membership test first). -/
def Dict.erase {α β : Type} [BEq α] (d : Dict α β) (k : α) : Dict α β :=
  d.filter (fun p => !(p.1 == k))

/-- `d[k] = v` in Python (lookup-equivalent; iteration order of updated
dicts is not relied upon by any property proved here). -/
def Dict.insert {α β : Type} [BEq α] (d : Dict α β) (k : α) (v : β) : Dict α β :=
  (k, v) :: Dict.erase d k

/-- Python truthiness of a string-or-None value (`if s:`). -/
def truthyOptStr : Option String → Bool
  | none => false
  | some s => !s.isEmpty

/-- `round(x, 2)` in Python: round to two decimal places. -/
def round2 (q : ℚ) : ℚ := ((round (q * 100) : ℤ) : ℚ) / 100

/-! ## Data model (JSON payload shapes used by the translated functions) -/

/-- One entry of `OptimizedPlayerStatsManager.player_stats_cache`.  The
Python code always reads the fields with `.get(_, 0.0)`, so an absent
`projected_pts` key is identical to storing `0`. -/
structure PlayerData where
  pts_ppr : ℚ
  projected_pts : ℚ
deriving DecidableEq

/-- One entry of `app_state.nfl_players` (the filtered player catalog).
The filter in `fetch_nfl_players_from_sleeper` always stores the keys,
with possibly-`None` values, hence `Option` fields. -/
structure PlayerInfo where
  full_name : Option String
  last_name : Option String
  team : Option String
deriving DecidableEq

/-- A Sleeper roster dict (`rosters` elements). -/
structure Roster where
  owner_id : Option String
  roster_id : Option Nat
  starters : Option (List String)
deriving DecidableEq

/-- A Sleeper matchup dict (`matchups` elements). -/
structure Matchup where
  roster_id : Option Nat
  matchup_id : Option Nat
deriving DecidableEq

/-- An `app_state.user_configs` entry. -/
structure UserConfig where
  user_id : Option String
  league_id : Option String
  week : Option Nat
deriving DecidableEq

/-- An `app_state.active_live_activities` entry. -/
structure Activity where
  user_config : UserConfig
  started_at : ℚ
  last_update : ℚ
deriving DecidableEq

/-- An ESPN game competitor (`game["competitors"]` element). -/
structure Competitor where
  abbreviation : String
deriving DecidableEq

/-- An ESPN game dict (`app_state.nfl_games` element).  `date` is the
parsed start timestamp; `none` models a missing or unparseable date
(`datetime.fromisoformat` raising, caught per game). -/
structure Game where
  status : String
  date : Option ℚ
  competitors : List Competitor
  name : String
deriving DecidableEq

/-- The mutable tables of `AppState` used by the translated functions,
plus the presence bit of the APScheduler `"game_end_checker"` job. -/
structure AppState where
  user_configs : Dict String UserConfig
  active_live_activities : Dict String Activity
  live_activity_tokens : Dict String String
  push_to_start_tokens : Dict String String
  last_scores : Dict String (Dict String ℚ)
  user_previous_pts_ppr : Dict String ℚ
  user_starter_player_ids : Dict String (List String)
  last_projection_totals : Dict String ℚ
  previous_player_scores : Dict String (Dict String ℚ)
  nfl_games : List Game
  nfl_players : Dict String PlayerInfo
  ending_checker_scheduled : Bool
deriving DecidableEq

/-- Read-only collaborators of one scheduler tick: the wall clock, the
current NFL week, the resolved league rosters and matchups (results of
`get_cached_league_rosters` / `sleeper_client.get_matchups`, whose cache
layer is modelled separately below), and the shared player statistics
snapshot `player_stats_cache`. -/
structure Env where
  now : ℚ
  current_week : Nat
  rosters_of : String → List Roster
  matchups_of : String → Nat → List Matchup
  player_stats_cache : Dict String PlayerData

/-! ## Roster / matchup resolution helpers (shared loops of `main.py`) -/

/-- The `for roster in rosters: if roster.get("owner_id") == user_id`
loop.  `user_id` can be `None` (registration stores the key even when
the request omitted it), in which case an ownerless roster matches. -/
def find_user_roster (rosters : List Roster) (user_id : Option String) : Option Roster :=
  rosters.find? (fun r => r.owner_id == user_id)

/-- The nested matchup loops that locate the opponent roster of
`user_roster` (lines 532-549, 620-640, 1079-1094, 1304-1317 of
`main.py`, all the same traversal). -/
def find_opponent_roster (rosters : List Roster) (matchups : List Matchup)
    (ur : Roster) : Option Roster :=
  match matchups.find? (fun m => m.roster_id == ur.roster_id) with
  | none => none
  | some um =>
    match matchups.find? (fun m =>
        m.matchup_id == um.matchup_id && !(m.roster_id == ur.roster_id)) with
    | none => none
    | some om => rosters.find? (fun r => r.roster_id == om.roster_id)

/-- `opponent_starter_ids` as computed from a resolved user id:
`roster.get("starters", [])` of the opponent roster, `[]` when the user
roster, the matchup or the opponent roster is not found. -/
def find_opponent_starters (rosters : List Roster) (matchups : List Matchup)
    (user_id : Option String) : List String :=
  match find_user_roster rosters user_id with
  | none => []
  | some ur =>
    match find_opponent_roster rosters matchups ur with
    | none => []
    | some o => o.starters.getD []

/-! ## Score aggregation (`get_user_starter_player_ids`, `get_user_totals`) -/

/-- `get_user_starter_player_ids` (main.py 705-737): resolve the starter
list from the device's league rosters and cache it per device.  Returns
the starter list and the updated state (only
`user_starter_player_ids` is ever written). -/
def get_user_starter_player_ids (env : Env) (st : AppState) (d : String) :
    List String × AppState :=
  match Dict.get? st.user_configs d with
  | none => ([], st)
  | some cfg =>
    -- `get_cached_league_rosters(None)` can never have a cached value and
    -- its fetch fails, so it yields the empty fallback list.
    let rosters := match cfg.league_id with
      | none => []
      | some lid => env.rosters_of lid
    match find_user_roster rosters cfg.user_id with
    | some r =>
      match r.starters with
      | some s =>
        (s, { st with
          user_starter_player_ids := Dict.insert st.user_starter_player_ids d s })
      | none => ([], st)
    | none => ([], st)

/-- The first two lines of `get_user_totals` (474-476): use the cached
starter list, refreshing when it is absent or empty (`if not starter_ids`). -/
def resolve_starter_ids (env : Env) (st : AppState) (d : String) :
    List String × AppState :=
  let cached := Dict.getD st.user_starter_player_ids d []
  if cached.isEmpty then get_user_starter_player_ids env st d else (cached, st)

/-- `OptimizedPlayerStatsManager.get_user_totals` (472-486): sum
`pts_ppr` and `projected_pts` over the starter ids, defaulting a missing
snapshot entry to zero, and round each total to two decimals. -/
def get_user_totals (env : Env) (st : AppState) (d : String) :
    (ℚ × ℚ) × AppState :=
  let r := resolve_starter_ids env st d
  let t := r.1.foldl
    (fun acc pid =>
      let pd := Dict.getD env.player_stats_cache pid ⟨0, 0⟩
      (acc.1 + pd.pts_ppr, acc.2 + pd.projected_pts))
    ((0 : ℚ), (0 : ℚ))
  ((round2 t.1, round2 t.2), r.2)

/-! ## Change & highlight detector
(`get_top_scoring_player_from_matchup`,
`update_single_live_activity_from_cache`) -/

/-- Line 565: `player_info.get("full_name", player_info.get("last_name",
f"Player {player_id}"))`.  For a catalog miss the fallback string is
produced; for a hit the stored (possibly `None`) `full_name` value is
returned, because the filtered catalog always stores the `full_name`
key, making the `last_name` default branch unreachable. -/
def resolve_player_name (nfl : Dict String PlayerInfo) (pid : String) :
    Option String :=
  match Dict.get? nfl pid with
  | none => some ("Player " ++ pid)
  | some info => info.full_name

/-- `point_diff = current_score - previous_score` for one player
(lines 555-559). -/
def player_point_diff (env : Env) (previous_scores : Dict String ℚ)
    (pid : String) : ℚ :=
  (Dict.getD env.player_stats_cache pid ⟨0, 0⟩).pts_ppr
    - Dict.getD previous_scores pid 0

/-- One iteration of the `for player_id, is_user in all_players` loop
(554-567): keep the strictly largest positive delta seen so far. -/
def top_step (env : Env) (nfl : Dict String PlayerInfo)
    (previous_scores : Dict String ℚ)
    (acc : Option String × ℚ × Bool) (p : String × Bool) :
    Option String × ℚ × Bool :=
  let point_diff := player_point_diff env previous_scores p.1
  if acc.2.1 < point_diff then (resolve_player_name nfl p.1, point_diff, p.2)
  else acc

/-- The `all_players` list scanned by
`get_top_scoring_player_from_matchup`: the cached user starters tagged
`True` plus, when the device is active, the opponent starters tagged
`False`.  When the device is active but its stored `league_id` is
`None`, `sleeper_client.get_matchups(None, week)` raises before the scan
loop and the handler returns the initial accumulator, so nothing at all
is scanned.  (Other network failures are not modelled: `Env` is a total
oracle.) -/
def detector_scanned_players (env : Env) (st : AppState) (d : String) :
    List (String × Bool) :=
  let user_ids := Dict.getD st.user_starter_player_ids d []
  match Dict.get? st.active_live_activities d with
  | none => user_ids.map (fun pid => (pid, true))
  | some act =>
    match act.user_config.league_id with
    | none => []
    | some lid =>
      user_ids.map (fun pid => (pid, true))
        ++ (find_opponent_starters (env.rosters_of lid)
              (env.matchups_of lid env.current_week) act.user_config.user_id).map
            (fun pid => (pid, false))

/-- `OptimizedPlayerStatsManager.get_top_scoring_player_from_matchup`
(501-572): fold the strict-max step over the scanned players, starting
from `("", 0.0, True)`. -/
def get_top_scoring_player_from_matchup (env : Env) (st : AppState)
    (d : String) : Option String × ℚ × Bool :=
  let previous_scores := Dict.getD st.previous_player_scores d []
  (detector_scanned_players env st d).foldl
    (top_step env st.nfl_players previous_scores) (some "", 0, true)

/-- The player ids whose snapshot scores are recorded for the next
comparison (lines 594-640): always the cached user starters, plus the
opponent starters when the device is active and its stored `league_id`
is not `None` (an exception in the opponent block — such as
`get_matchups(None, week)` raising — is caught and only skips the
opponent part). -/
def tracked_player_ids (env : Env) (st : AppState) (d : String) :
    List String :=
  let user_ids := Dict.getD st.user_starter_player_ids d []
  match Dict.get? st.active_live_activities d with
  | none => user_ids
  | some act =>
    match act.user_config.league_id with
    | none => user_ids
    | some lid =>
      user_ids ++ find_opponent_starters (env.rosters_of lid)
        (env.matchups_of lid env.current_week) act.user_config.user_id

/-- `current_player_scores` (594-640): snapshot `pts_ppr` of every
tracked player, keyed by player id. -/
def tracked_player_scores (env : Env) (st : AppState) (d : String) :
    Dict String ℚ :=
  (tracked_player_ids env st d).foldl
    (fun acc pid =>
      Dict.insert acc pid (Dict.getD env.player_stats_cache pid ⟨0, 0⟩).pts_ppr)
    []

/-- The detector's decision for one device.  The Python function builds
a human-readable `message` string from the highlight name and delta with
`f"...{top_point_diff:.1f} pts"`; the float formatting is not modelled,
the decision fields and the raw highlight data are. -/
structure Decision where
  shouldPush : Bool
  isAlert : Bool
  highlight : Option String
  highlightDiff : ℚ
deriving DecidableEq

/-- `OptimizedPlayerStatsManager.update_single_live_activity_from_cache`
(574-697) as a state transformer producing the push decision:

* compute current totals from the snapshot (caching starter ids),
* read the stored previous totals (default `0.0`),
* mark each field changed when `abs(new - old) > 0.01`,
* find the top scoring player of the matchup,
* unconditionally store `current_player_scores` for the next comparison,
* push iff a field changed or the highlight name is truthy with
  `top_point_diff > 0.1`; a push stores the new totals, flags an alert
  iff `top_point_diff >= 3.0`, and (when the device is active and has a
  live-activity token) touches the activity's `last_update`. -/
def update_single_live_activity_from_cache (env : Env) (st : AppState)
    (d : String) : AppState × Decision :=
  let r := get_user_totals env st d
  let current_pts_ppr := r.1.1
  let current_projections := r.1.2
  let st1 := r.2
  let previous_pts_ppr := Dict.getD st1.user_previous_pts_ppr d 0
  let previous_projections := Dict.getD st1.last_projection_totals d 0
  let pts_ppr_changed := decide ((1 : ℚ)/100 < |current_pts_ppr - previous_pts_ppr|)
  let projections_changed :=
    decide ((1 : ℚ)/100 < |current_projections - previous_projections|)
  let t := get_top_scoring_player_from_matchup env st1 d
  let top_player_name := t.1
  let top_point_diff := t.2.1
  let st2 := { st1 with
    previous_player_scores :=
      Dict.insert st1.previous_player_scores d (tracked_player_scores env st1 d) }
  let shouldPush := pts_ppr_changed || projections_changed
      || (truthyOptStr top_player_name && decide ((1 : ℚ)/10 < top_point_diff))
  if shouldPush then
    let st3 := { st2 with
      user_previous_pts_ppr := Dict.insert st2.user_previous_pts_ppr d current_pts_ppr,
      last_projection_totals := Dict.insert st2.last_projection_totals d current_projections }
    let st4 :=
      match Dict.get? st3.active_live_activities d with
      | none => st3
      | some act =>
        if (Dict.get? st3.live_activity_tokens d).isSome then
          { st3 with
            active_live_activities :=
              Dict.insert st3.active_live_activities d { act with last_update := env.now } }
        else st3
    (st4, ⟨true, decide ((3 : ℚ) ≤ top_point_diff), top_player_name, top_point_diff⟩)
  else
    (st2, ⟨false, false, top_player_name, top_point_diff⟩)

/-! ## Session end and heartbeat (`stop_live_activity_by_id`,
`live_activity_heartbeat`) -/

/-- `stop_live_activity_by_id` (2236-2257): when the device has an
active session, delete its entries from `active_live_activities`,
`last_scores` and `live_activity_tokens`.  The boolean reports whether an
APNS end notification was submitted (a live-activity token was
present). Note that `user_previous_pts_ppr`, `last_projection_totals`
and `previous_player_scores` are left untouched. -/
def stop_live_activity_by_id (st : AppState) (d : String) : AppState × Bool :=
  if (Dict.get? st.active_live_activities d).isNone then (st, false)
  else
    let sent := (Dict.get? st.live_activity_tokens d).isSome
    ({ st with
      active_live_activities := Dict.erase st.active_live_activities d,
      last_scores := Dict.erase st.last_scores d,
      live_activity_tokens := Dict.erase st.live_activity_tokens d }, sent)

/-- `live_activity_heartbeat` (2259-2306): reconcile backend session
state with the client-reported `has_active_activity` flag. -/
def live_activity_heartbeat (now : ℚ) (st : AppState) (d : String)
    (ios_has_active_activity : Bool) : AppState :=
  let backend_has_active := (Dict.get? st.active_live_activities d).isSome
  if ios_has_active_activity && !backend_has_active then
    match Dict.get? st.user_configs d with
    | some cfg =>
      { st with
        active_live_activities :=
          Dict.insert st.active_live_activities d ⟨cfg, now, now⟩ }
    | none => st
  else if !ios_has_active_activity && backend_has_active then
    (stop_live_activity_by_id st d).1
  else st

/-! ## Lifecycle controller: game-start check
(`get_users_with_players_in_games`, `check_and_start_live_activities`,
`manage_ending_scheduler`) -/

/-- The `teams_playing` set of `get_users_with_players_in_games`
(1032-1037): every non-empty competitor abbreviation of the starting
games.  The Python set is modelled as a list used only through
membership. -/
def starting_teams (games : List Game) : List String :=
  (games.flatMap (fun g => g.competitors.map Competitor.abbreviation)).filter
    (fun a => !a.isEmpty)

/-- The team sets of `get_users_to_end_live_activities` (1252-1266): the
non-empty competitor abbreviations of all games with the given status. -/
def teams_with_status (games : List Game) (s : String) : List String :=
  ((games.filter (fun g => g.status == s)).flatMap
    (fun g => g.competitors.map Competitor.abbreviation)).filter
    (fun a => !a.isEmpty)

/-- Line 1110 / 1332: Sleeper uses `WAS` where ESPN uses `WSH`. -/
def normalized_team (t : String) : String := if t == "WAS" then "WSH" else t

/-- The `for player_id in all_player_ids` team-overlap loop (1104-1115,
identically 1327-1335).  A catalog entry whose `team` value is `None`
never matches (a `None` is never in a set of strings). -/
def any_player_in_teams (nfl : Dict String PlayerInfo) (teams : List String)
    (ids : List String) : Bool :=
  ids.any (fun pid =>
    match Dict.get? nfl pid with
    | none => false
    | some info =>
      match info.team with
      | none => false
      | some t => teams.contains (normalized_team t))

/-- The `all_player_ids` collection of both lifecycle checks (1096-1101,
1319-1324): the user's starters plus the opponent's starters; `none`
models the `if not user_roster: continue` skip. -/
def combined_starter_ids (rosters : List Roster) (matchups : List Matchup)
    (user_id : Option String) : Option (List String) :=
  match find_user_roster rosters user_id with
  | none => none
  | some ur =>
    let ids1 := match ur.starters with
      | some s => s
      | none => []
    let ids2 := match find_opponent_roster rosters matchups ur with
      | some o => o.starters.getD []
      | none => []
    some (ids1 ++ ids2)

/-- The per-user body of `get_users_with_players_in_games` (1064-1118):
skip users without a truthy `user_id` or without a roster, otherwise
test the combined starters for a team in the starting games. -/
def device_game_overlap (nfl : Dict String PlayerInfo) (teams : List String)
    (rosters : List Roster) (matchups : List Matchup) (cfg : UserConfig) : Bool :=
  if !truthyOptStr cfg.user_id then false
  else
    match combined_starter_ids rosters matchups cfg.user_id with
    | none => false
    | some ids => any_player_in_teams nfl teams ids

/-- The `users_by_league` grouping (1046-1050 and 1271-1277): group the
given `(device_id, user_config)` pairs by truthy `league_id`, league
keys in first-appearance order, each group in iteration order. -/
def users_by_league (pairs : Dict String UserConfig) :
    List (String × List (String × UserConfig)) :=
  let lids := (pairs.filterMap (fun p =>
    match p.2.league_id with
    | some l => if l.isEmpty then none else some l
    | none => none)).dedup
  lids.map (fun lid => (lid, pairs.filter (fun p => p.2.league_id == some lid)))

/-- `week = league_users[0][1].get("week", 1)` (1060, 1285). -/
def week_for_group (lus : List (String × UserConfig)) : Nat :=
  match lus.head? with
  | some u => u.2.week.getD 1
  | none => 1

/-- `get_users_with_players_in_games` (1028-1129). -/
def get_users_with_players_in_games (env : Env) (st : AppState)
    (games_starting_soon : List Game) : List String :=
  let teams := starting_teams games_starting_soon
  if teams.isEmpty then []
  else
    (users_by_league st.user_configs).flatMap (fun g =>
      let rosters := env.rosters_of g.1
      let matchups := env.matchups_of g.1 (week_for_group g.2)
      g.2.filterMap (fun p =>
        if device_game_overlap st.nfl_players teams rosters matchups p.2
        then some p.1 else none))

/-- `manage_ending_scheduler` (1196-1223): the
`"game_end_checker"` job exists after the call iff games are live when
it did not exist, or still exist when games are live; equivalently the
two guarded transitions of the source. -/
def manage_ending_scheduler (has_live_games : Bool)
    (ending_scheduler_exists : Bool) : Bool :=
  if has_live_games && !ending_scheduler_exists then true
  else if !has_live_games && ending_scheduler_exists then false
  else ending_scheduler_exists

/-- `start_live_activity_for_device` (1409-1433): records the activity
(with `started_at = last_update = now`) for registered devices; the APNS
start notification has no modelled state effect. -/
def start_live_activity_for_device (env : Env) (st : AppState) (d : String) :
    AppState :=
  match Dict.get? st.user_configs d with
  | none => st
  | some cfg =>
    { st with
      active_live_activities :=
        Dict.insert st.active_live_activities d ⟨cfg, env.now, env.now⟩ }

/-- `update_live_activity_with_message` (1435-1464): when the device is
active and has a live-activity token, refresh `last_update`. -/
def update_live_activity_with_message (env : Env) (st : AppState) (d : String) :
    AppState :=
  match Dict.get? st.active_live_activities d with
  | none => st
  | some act =>
    if (Dict.get? st.live_activity_tokens d).isNone then st
    else
      { st with
        active_live_activities :=
          Dict.insert st.active_live_activities d { act with last_update := env.now } }

/-- The games-starting-soon filter of `check_and_start_live_activities`
(1148-1160): a parsed start time within the next 5 minutes (300 s). -/
def games_starting_soon (now : ℚ) (games : List Game) : List Game :=
  games.filter (fun g =>
    match g.date with
    | none => false
    | some t => decide (0 ≤ t - now) && decide (t - now ≤ 300))

/-- One iteration of the `for device_id in users_to_notify` loop
(1177-1191). -/
def game_start_step (env : Env) (st : AppState) (d : String) : AppState :=
  if (Dict.get? st.active_live_activities d).isNone then
    start_live_activity_for_device env st d
  else
    update_live_activity_with_message env st d

/-- `check_and_start_live_activities` (1131-1194). -/
def check_and_start_live_activities (env : Env) (st : AppState) : AppState :=
  let has_live_games := st.nfl_games.any (fun g => g.status == "in")
  let soon := games_starting_soon env.now st.nfl_games
  let st1 := { st with
    ending_checker_scheduled :=
      manage_ending_scheduler has_live_games st.ending_checker_scheduled }
  if soon.isEmpty then st1
  else
    (get_users_with_players_in_games env st1 soon).foldl (game_start_step env) st1

/-! ## Lifecycle controller: schedule-driven end
(`get_users_to_end_live_activities`, `check_and_end_live_activities`) -/

/-- The `(device_id, user_config)` pairs of the active devices that are
still registered (1271-1277). -/
def active_user_pairs (st : AppState) : Dict String UserConfig :=
  st.active_live_activities.filterMap (fun p =>
    (Dict.get? st.user_configs p.1).map (fun c => (p.1, c)))

/-- `get_users_to_end_live_activities` (1249-1350): active devices none
of whose combined starters play for a team in a live (`"in"`) game.
(The `finished_teams` set of the source is computed but never used by
the decision.)  Devices without a truthy `user_id` or without a
resolvable roster are skipped, i.e. kept alive. -/
def get_users_to_end_live_activities (env : Env) (st : AppState) : List String :=
  let live_teams := teams_with_status st.nfl_games "in"
  (users_by_league (active_user_pairs st)).flatMap (fun g =>
    let rosters := env.rosters_of g.1
    let matchups := env.matchups_of g.1 (week_for_group g.2)
    g.2.filterMap (fun p =>
      if !truthyOptStr p.2.user_id then none
      else
        match combined_starter_ids rosters matchups p.2.user_id with
        | none => none
        | some ids =>
          if any_player_in_teams st.nfl_players live_teams ids then none
          else some p.1))

/-- `check_and_end_live_activities` (1352-1367): stop every activity the
schedule-driven check marked for ending. -/
def check_and_end_live_activities (env : Env) (st : AppState) : AppState :=
  (get_users_to_end_live_activities env st).foldl
    (fun s d => (stop_live_activity_by_id s d).1) st

/-! ## TTL sweep (`cleanup_expired_live_activities`) -/

/-- The day-of-week ceiling of `cleanup_expired_live_activities`
(1373-1381); `weekday` follows Python's `datetime.weekday()`
(0 = Monday, 6 = Sunday). -/
def ttl_max_age_hours (weekday : Nat) : Nat :=
  if weekday == 6 then 16
  else if weekday == 0 || weekday == 3 then 8
  else 6

/-- `cleanup_expired_live_activities` (1369-1407): stop every active
session strictly older than the day-dependent ceiling, independent of
game state. -/
def cleanup_expired_live_activities (now : ℚ) (weekday : Nat) (st : AppState) :
    AppState :=
  let max_age : ℚ := (ttl_max_age_hours weekday : ℚ) * 3600
  let expired_devices :=
    (st.active_live_activities.filter
      (fun p => decide (max_age < now - p.2.started_at))).map Prod.fst
  expired_devices.foldl (fun s d => (stop_live_activity_by_id s d).1) st

/-! ## Remote data cache (`get_cached_league_rosters`,
`get_cached_league_info`) -/

/-- `LEAGUE_ROSTERS_CACHE_SECONDS = 10 * 60` (main.py line 43). -/
def LEAGUE_ROSTERS_CACHE_SECONDS : ℚ := 10 * 60

/-- `LEAGUE_INFO_CACHE_SECONDS = 24 * 60 * 60` (main.py line 42). -/
def LEAGUE_INFO_CACHE_SECONDS : ℚ := 24 * 60 * 60

/-- League info payloads are JSON dicts; only the fallback value's shape
matters here. -/
abbrev LeagueInfo := Dict String String

/-- The hard-coded fallback of `get_cached_league_info` (line 902). -/
def fallback_league_info : LeagueInfo := [("name", "Fantasy Football")]

/-- The fetch oracle of the cache layer: `none` models the external call
raising. -/
structure CacheEnv where
  now : ℚ
  fetch_rosters : String → Option (List Roster)
  fetch_league_info : String → Option LeagueInfo

/-- `get_cached_league_rosters` (904-927): serve a fresh cached value;
otherwise fetch, falling back to the stale value on failure, and to `[]`
when nothing is cached. -/
def get_cached_league_rosters (env : CacheEnv)
    (cache : Dict String (ℚ × List Roster)) (league_id : String) :
    List Roster × Dict String (ℚ × List Roster) :=
  match Dict.get? cache league_id with
  | some c =>
    if env.now - c.1 < LEAGUE_ROSTERS_CACHE_SECONDS then (c.2, cache)
    else
      match env.fetch_rosters league_id with
      | some fresh => (fresh, Dict.insert cache league_id (env.now, fresh))
      | none => (c.2, cache)
  | none =>
    match env.fetch_rosters league_id with
    | some fresh => (fresh, Dict.insert cache league_id (env.now, fresh))
    | none => ([], cache)

/-- `get_cached_league_info` (879-902): same shape, with the
`{"name": "Fantasy Football"}` fallback when nothing is cached. -/
def get_cached_league_info (env : CacheEnv)
    (cache : Dict String (ℚ × LeagueInfo)) (league_id : String) :
    LeagueInfo × Dict String (ℚ × LeagueInfo) :=
  match Dict.get? cache league_id with
  | some c =>
    if env.now - c.1 < LEAGUE_INFO_CACHE_SECONDS then (c.2, cache)
    else
      match env.fetch_league_info league_id with
      | some fresh => (fresh, Dict.insert cache league_id (env.now, fresh))
      | none => (c.2, cache)
  | none =>
    match env.fetch_league_info league_id with
    | some fresh => (fresh, Dict.insert cache league_id (env.now, fresh))
    | none => (fallback_league_info, cache)

/-! ## Spec-side reformulation of the aggregation contract -/

/-- Snapshot score of one player, zero when the id is missing from the
snapshot (spec side of the aggregation refinement). -/
def score_or_zero (env : Env) (pid : String) : ℚ :=
  match Dict.get? env.player_stats_cache pid with
  | some p => p.pts_ppr
  | none => 0

/-- Snapshot projection of one player, zero when the id is missing from
the snapshot (spec side of the aggregation refinement). -/
def projection_or_zero (env : Env) (pid : String) : ℚ :=
  match Dict.get? env.player_stats_cache pid with
  | some p => p.projected_pts
  | none => 0

/-- The spec's description of `aggregate(deviceId)`: resolve the
device's starter list (cached per device, refreshed from rosters when it
is absent or empty), look every id up in the snapshot with missing ids
contributing zero, sum each field, and round each total to two decimal
places. -/
def aggregate_spec (env : Env) (st : AppState) (d : String) : ℚ × ℚ :=
  let ids := (resolve_starter_ids env st d).1
  (round2 ((ids.map (score_or_zero env)).sum),
   round2 ((ids.map (projection_or_zero env)).sum))

/-! ## Concrete inputs used by the witnesses and counterexamples -/

/-- The empty `AppState`. -/
def st0 : AppState :=
  { user_configs := [], active_live_activities := [], live_activity_tokens := [],
    push_to_start_tokens := [], last_scores := [], user_previous_pts_ppr := [],
    user_starter_player_ids := [], last_projection_totals := [],
    previous_player_scores := [], nfl_games := [], nfl_players := [],
    ending_checker_scheduled := false }

/-- An environment with no leagues and an empty snapshot. -/
def env0 : Env := ⟨0, 1, fun _ => [], fun _ _ => [], []⟩

/-- A one-starter snapshot where player `u1` scored 4 points. -/
def envW1 : Env := ⟨0, 1, fun _ => [], fun _ _ => [], [("u1", ⟨4, 0⟩)]⟩

/-- Device `d`, one cached starter `u1` previously at 0 points, stored
totals already matching the new totals. -/
def stW1 : AppState :=
  { st0 with
    user_starter_player_ids := [("d", ["u1"])],
    user_previous_pts_ppr := [("d", 4)],
    last_projection_totals := [("d", 0)],
    previous_player_scores := [("d", [("u1", 0)])],
    nfl_players := [("u1", ⟨some "Alpha", some "A", some "KC"⟩),
                    ("u2", ⟨some "Beta", some "B", some "KC"⟩)] }

/-- A snapshot where `u1` scored exactly 0.1 and `u2` scored 0. -/
def envCE : Env := ⟨0, 1, fun _ => [], fun _ _ => [], [("u1", ⟨1/10, 0⟩), ("u2", ⟨0, 0⟩)]⟩

/-- Device `d` with starters `u1, u2`; previously `u1` had 0 and `u2`
had 0.1 points, so the aggregate is unchanged while the largest
per-player delta is exactly 0.1. -/
def stCE : AppState :=
  { st0 with
    user_starter_player_ids := [("d", ["u1", "u2"])],
    user_previous_pts_ppr := [("d", 1/10)],
    last_projection_totals := [("d", 0)],
    previous_player_scores := [("d", [("u1", 0), ("u2", 1/10)])],
    nfl_players := [("u1", ⟨some "Alpha", some "A", some "KC"⟩),
                    ("u2", ⟨some "Beta", some "B", some "KC"⟩)] }

/-- A cache environment whose fetches always fail, observed well after
every TTL window. -/
def cenvW : CacheEnv := ⟨100000, fun _ => none, fun _ => none⟩

/-- A failing cache environment at time 0. -/
def cenvFail : CacheEnv := ⟨0, fun _ => none, fun _ => none⟩

/-- A roster used as the stale cached value in the cache witness. -/
def rosterW : Roster := ⟨some "U", some 1, some ["p"]⟩

/-- Config of the device used in the schedule-driven-end scenario. -/
def cfgC5 : UserConfig := ⟨some "U1", some "L1", some 1⟩

/-- Activity of the device used in the schedule-driven-end scenario. -/
def actC5 : Activity := ⟨cfgC5, 0, 0⟩

/-- Environment for the schedule-driven-end scenario: the league rosters
contain the user's roster, there are no matchups and an empty
snapshot. -/
def envC5 : Env :=
  ⟨0, 1, fun _ => [⟨some "U1", some 1, some ["p1"]⟩], fun _ _ => [], [("p1", ⟨0, 0⟩)]⟩

/-- Device `d` active with populated per-device tables and no live
games, so the schedule-driven end fires for it. -/
def stC5 : AppState :=
  { st0 with
    user_configs := [("d", cfgC5)],
    active_live_activities := [("d", actC5)],
    live_activity_tokens := [("d", "tok")],
    last_scores := [("d", [])],
    user_previous_pts_ppr := [("d", 5)],
    user_starter_player_ids := [("d", ["p1"])],
    last_projection_totals := [("d", 7)],
    previous_player_scores := [("d", [("p1", 2)])],
    nfl_players := [("p1", ⟨some "Px", some "x", some "KC"⟩)] }

/-- Activity that started at time 0 for the TTL witness. -/
def actW8 : Activity := ⟨⟨some "U", some "L", some 1⟩, 0, 0⟩

/-- One active session, 17 hours old at the witness's sweep time. -/
def stW8 : AppState := { st0 with active_live_activities := [("d", actW8)] }

/-- A game starting 100 seconds from now (inside the 5-minute lead
window). -/
def gameSoon : Game := ⟨"pre", some 100, [⟨"KC"⟩], "A at B"⟩

/-- An upcoming game but no registered devices. -/
def stW6 : AppState := { st0 with nfl_games := [gameSoon] }

/-! ## Dict lemmas -/

theorem Dict.get?_insert_self {α β : Type} [BEq α] [LawfulBEq α]
    (d : Dict α β) (k : α) (v : β) :
    Dict.get? (Dict.insert d k v) k = some v := by
  simp [Dict.insert, Dict.get?]

theorem Dict.get?_erase_ne {α β : Type} [BEq α] [LawfulBEq α]
    (d : Dict α β) (k k' : α) (h : k' ≠ k) :
    Dict.get? (Dict.erase d k) k' = Dict.get? d k' := by
  induction d with
  | nil => rfl
  | cons p rest ih =>
    by_cases hp : p.1 == k
    · have hp' : ¬(p.1 == k') := by
        simp only [beq_iff_eq] at hp ⊢
        exact fun hk => h (hk ▸ hp)
      simp [Dict.erase, List.filter_cons, hp, Dict.get?, hp'] at *
      exact ih
    · simp only [Dict.erase, List.filter_cons, hp] at *
      simp only [Bool.not_false, if_pos] at *
      by_cases hq : p.1 == k'
      · simp [Dict.get?, hq]
      · simp [Dict.get?, hq]
        exact ih

theorem Dict.get?_erase_self {α β : Type} [BEq α] [LawfulBEq α]
    (d : Dict α β) (k : α) :
    Dict.get? (Dict.erase d k) k = none := by
  induction d with
  | nil => rfl
  | cons p rest ih =>
    by_cases hp : p.1 == k
    · simpa [Dict.erase, List.filter_cons, hp] using ih
    · simpa [Dict.erase, List.filter_cons, hp, Dict.get?] using ih

theorem Dict.get?_insert_ne {α β : Type} [BEq α] [LawfulBEq α]
    (d : Dict α β) (k k' : α) (v : β) (h : k' ≠ k) :
    Dict.get? (Dict.insert d k v) k' = Dict.get? d k' := by
  have hk : ¬(k == k') := by
    simp only [beq_iff_eq]
    exact fun hk => h hk.symm
  simp [Dict.insert, Dict.get?, hk, Dict.get?_erase_ne d k k' h]

theorem Dict.get?_eq_some_mem {α β : Type} [BEq α] [LawfulBEq α]
    {d : Dict α β} {k : α} {v : β} (h : Dict.get? d k = some v) : (k, v) ∈ d := by
  induction d with
  | nil => simp [Dict.get?] at h
  | cons p rest ih =>
    by_cases hp : p.1 == k
    · simp only [Dict.get?, hp, if_pos, Option.some.injEq] at h
      have h1 : p.1 = k := by simpa [beq_iff_eq] using hp
      have hp2 : p = (k, v) := by
        cases p
        simp_all
      rw [hp2]
      exact List.mem_cons_self _ _
    · simp only [Dict.get?, hp, if_neg, Bool.false_eq_true, not_false_iff] at h
      exact List.mem_cons_of_mem _ (ih h)

theorem Dict.nodup_mem_get? {α β : Type} [BEq α] [LawfulBEq α]
    {d : Dict α β} (hnd : (d.map Prod.fst).Nodup) {k : α} {v : β}
    (hm : (k, v) ∈ d) : Dict.get? d k = some v := by
  induction d with
  | nil => simp at hm
  | cons p rest ih =>
    simp only [List.map_cons, List.nodup_cons] at hnd
    rcases List.mem_cons.mp hm with h | h
    · subst h
      simp [Dict.get?]
    · have hne : ¬(p.1 == k) := by
        simp only [beq_iff_eq]
        intro he
        exact hnd.1 (he ▸ List.mem_map_of_mem Prod.fst h)
      simp only [Dict.get?, hne, Bool.false_eq_true, if_neg, not_false_iff]
      exact ih hnd.2 h

/-! ## Fold lemmas -/

/-- Folding the two-component accumulation of `get_user_totals` computes
the two mapped sums. -/
theorem foldl_pair_sum (f g : String → ℚ) :
    ∀ (ids : List String) (a b : ℚ),
      ids.foldl (fun acc pid => (acc.1 + f pid, acc.2 + g pid)) (a, b)
        = (a + (ids.map f).sum, b + (ids.map g).sum) := by
  intro ids
  induction ids with
  | nil => intro a b; simp
  | cons x t ih =>
    intro a b
    simp only [List.foldl_cons, List.map_cons, List.sum_cons, ih, add_assoc]

/-- The strict-max fold of the highlight detector never reaches a bound
that neither the accumulator nor any scanned delta reaches. -/
theorem foldl_top_step_lt (env : Env) (nfl : Dict String PlayerInfo)
    (prev : Dict String ℚ) (c : ℚ) :
    ∀ (l : List (String × Bool)) (acc : Option String × ℚ × Bool),
      acc.2.1 < c → (∀ p ∈ l, player_point_diff env prev p.1 < c) →
      (l.foldl (top_step env nfl prev) acc).2.1 < c := by
  intro l
  induction l with
  | nil => intro acc hacc _; simpa using hacc
  | cons p t ih =>
    intro acc hacc hl
    simp only [List.foldl_cons]
    apply ih
    · unfold top_step
      by_cases hgt : acc.2.1 < player_point_diff env prev p.1
      · simpa [hgt] using hl p (List.mem_cons_self p t)
      · simpa [hgt] using hacc
    · intro q hq
      exact hl q (List.mem_cons_of_mem p hq)

/-- After inserting `f x` for every `x` of `l`, a key of `l` maps to its
`f` value. -/
theorem foldl_insert_get_mem (f : String → ℚ) :
    ∀ (l : List String) (acc : Dict String ℚ) (k : String), k ∈ l →
      Dict.get? (l.foldl (fun a x => Dict.insert a x (f x)) acc) k = some (f k) := by
  intro l
  induction l with
  | nil => intro acc k hk; simp at hk
  | cons x t ih =>
    intro acc k hk
    simp only [List.foldl_cons]
    by_cases hkt : k ∈ t
    · exact ih _ k hkt
    · have hkx : k = x := by
        rcases List.mem_cons.mp hk with h | h
        · exact h
        · exact absurd h hkt
      subst hkx
      have hpres : ∀ (t' : List String) (a : Dict String ℚ), k ∉ t' →
          Dict.get? (t'.foldl (fun a x => Dict.insert a x (f x)) a) k
            = Dict.get? a k := by
        intro t'
        induction t' with
        | nil => intro a _; rfl
        | cons y s ihs =>
          intro a hns
          simp only [List.foldl_cons]
          rw [ihs _ (fun h => hns (List.mem_cons_of_mem y h))]
          exact Dict.get?_insert_ne _ _ _ _ (fun h => hns (h ▸ List.mem_cons_self y s))
      rw [hpres t _ hkt, Dict.get?_insert_self]

/-! ## State-preservation lemmas -/

/-- `get_user_starter_player_ids` writes only
`user_starter_player_ids`. -/
theorem get_user_starter_player_ids_preserve (env : Env) (st : AppState) (d : String) :
    (get_user_starter_player_ids env st d).2.user_configs = st.user_configs
    ∧ (get_user_starter_player_ids env st d).2.active_live_activities = st.active_live_activities
    ∧ (get_user_starter_player_ids env st d).2.live_activity_tokens = st.live_activity_tokens
    ∧ (get_user_starter_player_ids env st d).2.user_previous_pts_ppr = st.user_previous_pts_ppr
    ∧ (get_user_starter_player_ids env st d).2.last_projection_totals = st.last_projection_totals
    ∧ (get_user_starter_player_ids env st d).2.previous_player_scores = st.previous_player_scores
    ∧ (get_user_starter_player_ids env st d).2.nfl_players = st.nfl_players := by
  unfold get_user_starter_player_ids
  dsimp only
  repeat' split
  all_goals exact ⟨rfl, rfl, rfl, rfl, rfl, rfl, rfl⟩

/-- `resolve_starter_ids` writes only `user_starter_player_ids`. -/
theorem resolve_starter_ids_preserve (env : Env) (st : AppState) (d : String) :
    (resolve_starter_ids env st d).2.user_configs = st.user_configs
    ∧ (resolve_starter_ids env st d).2.active_live_activities = st.active_live_activities
    ∧ (resolve_starter_ids env st d).2.live_activity_tokens = st.live_activity_tokens
    ∧ (resolve_starter_ids env st d).2.user_previous_pts_ppr = st.user_previous_pts_ppr
    ∧ (resolve_starter_ids env st d).2.last_projection_totals = st.last_projection_totals
    ∧ (resolve_starter_ids env st d).2.previous_player_scores = st.previous_player_scores
    ∧ (resolve_starter_ids env st d).2.nfl_players = st.nfl_players := by
  unfold resolve_starter_ids
  dsimp only
  split
  · exact get_user_starter_player_ids_preserve env st d
  · exact ⟨rfl, rfl, rfl, rfl, rfl, rfl, rfl⟩

/-- The state returned by `get_user_totals` is the starter-resolution
state. -/
theorem get_user_totals_snd (env : Env) (st : AppState) (d : String) :
    (get_user_totals env st d).2 = (resolve_starter_ids env st d).2 := rfl

/-- A `game_start_step` for another device does not change this
device's activity entry. -/
theorem game_start_step_get_other (env : Env) (s : AppState) (u d : String)
    (h : d ≠ u) :
    Dict.get? (game_start_step env s u).active_live_activities d
      = Dict.get? s.active_live_activities d := by
  unfold game_start_step start_live_activity_for_device update_live_activity_with_message
  repeat' split
  all_goals first
    | rfl
    | simp [Dict.get?_insert_ne _ _ _ _ h]

/-- `game_start_step` does not touch the ending-checker flag. -/
theorem game_start_step_flag (env : Env) (s : AppState) (u : String) :
    (game_start_step env s u).ending_checker_scheduled = s.ending_checker_scheduled := by
  unfold game_start_step start_live_activity_for_device update_live_activity_with_message
  repeat' split
  all_goals rfl

/-- Folding `game_start_step` does not touch the ending-checker flag. -/
theorem game_start_fold_flag (env : Env) :
    ∀ (l : List String) (s : AppState),
      (l.foldl (game_start_step env) s).ending_checker_scheduled
        = s.ending_checker_scheduled := by
  intro l
  induction l with
  | nil => intro s; rfl
  | cons x t ih =>
    intro s
    simp only [List.foldl_cons, ih, game_start_step_flag]

/-- Folding `game_start_step` over a list not containing this device
leaves an absent activity entry absent. -/
theorem game_start_fold_not_mem (env : Env) :
    ∀ (l : List String) (s : AppState) (d : String), d ∉ l →
      Dict.get? s.active_live_activities d = none →
      Dict.get? ((l.foldl (game_start_step env) s)).active_live_activities d = none := by
  intro l
  induction l with
  | nil => intro s d _ h; exact h
  | cons x t ih =>
    intro s d hd h
    simp only [List.foldl_cons]
    refine ih _ d (fun hm => hd (List.mem_cons_of_mem x hm)) ?_
    rw [game_start_step_get_other env s x d (fun he => hd (he ▸ List.mem_cons_self x t))]
    exact h

/-- A stop for any device never creates an activity entry. -/
theorem stop_get_none (s : AppState) (x d : String)
    (h : Dict.get? s.active_live_activities d = none) :
    Dict.get? (stop_live_activity_by_id s x).1.active_live_activities d = none := by
  unfold stop_live_activity_by_id
  split
  · simpa
  · by_cases hdx : d = x
    · subst hdx
      simp [Dict.get?_erase_self]
    · simp [Dict.get?_erase_ne _ _ _ hdx, h]

/-- After stopping a device its activity entry is gone. -/
theorem stop_self_none (s : AppState) (d : String) :
    Dict.get? (stop_live_activity_by_id s d).1.active_live_activities d = none := by
  unfold stop_live_activity_by_id
  split
  · next h => simpa [Option.isNone_iff_eq_none] using h
  · simp [Dict.get?_erase_self]

/-- A stop for another device does not change this device's activity
entry. -/
theorem stop_get_other (s : AppState) (x d : String) (h : d ≠ x) :
    Dict.get? (stop_live_activity_by_id s x).1.active_live_activities d
      = Dict.get? s.active_live_activities d := by
  unfold stop_live_activity_by_id
  split
  · rfl
  · simp [Dict.get?_erase_ne _ _ _ h]

/-- Folding stops preserves an absent activity entry. -/
theorem stop_fold_none :
    ∀ (l : List String) (s : AppState) (d : String),
      Dict.get? s.active_live_activities d = none →
      Dict.get? ((l.foldl (fun s x => (stop_live_activity_by_id s x).1) s)).active_live_activities d
        = none := by
  intro l
  induction l with
  | nil => intro s d h; exact h
  | cons x t ih =>
    intro s d h
    simp only [List.foldl_cons]
    exact ih _ d (stop_get_none s x d h)

/-- Folding stops over a list not containing this device does not
change its activity entry. -/
theorem stop_fold_not_mem :
    ∀ (l : List String) (s : AppState) (d : String), d ∉ l →
      Dict.get? ((l.foldl (fun s x => (stop_live_activity_by_id s x).1) s)).active_live_activities d
        = Dict.get? s.active_live_activities d := by
  intro l
  induction l with
  | nil => intro s d _; rfl
  | cons x t ih =>
    intro s d hd
    simp only [List.foldl_cons]
    rw [ih _ d (fun h => hd (List.mem_cons_of_mem x h)),
      stop_get_other s x d (fun he => hd (he ▸ List.mem_cons_self x t))]

/-- Folding stops over a list containing this device removes its
activity entry. -/
theorem stop_fold_mem :
    ∀ (l : List String) (s : AppState) (d : String), d ∈ l →
      Dict.get? ((l.foldl (fun s x => (stop_live_activity_by_id s x).1) s)).active_live_activities d
        = none := by
  intro l
  induction l with
  | nil => intro s d h; simp at h
  | cons x t ih =>
    intro s d hd
    simp only [List.foldl_cons]
    by_cases hdt : d ∈ t
    · exact ih _ d hdt
    · have hdx : d = x := by
        rcases List.mem_cons.mp hd with h | h
        · exact h
        · exact absurd h hdt
      subst hdx
      exact stop_fold_none t _ d (stop_self_none s d)

/-- The two guarded transitions of `manage_ending_scheduler` make the
job presence equal the live-game flag. -/
theorem manage_ending_scheduler_eq (has_live scheduled : Bool) :
    manage_ending_scheduler has_live scheduled = has_live := by
  cases has_live <;> cases scheduled <;> rfl

/-! ## Claim theorems -/

/-- C7: the dynamic ending-checker trigger is running exactly while at
least one monitored game is live: after every game-start check the
`"game_end_checker"` job is scheduled iff some game has status `"in"`,
because `manage_ending_scheduler` starts it when live games exist and it
is absent, stops it when none exist and it is present, and otherwise
leaves it alone. -/
theorem ending_checker_tracks_live_games (env : Env) (st : AppState) :
    (check_and_start_live_activities env st).ending_checker_scheduled
      = st.nfl_games.any (fun g => g.status == "in")
    ∧ ∀ (has_live scheduled : Bool),
        manage_ending_scheduler has_live scheduled = has_live := by
  refine ⟨?_, manage_ending_scheduler_eq⟩
  unfold check_and_start_live_activities
  dsimp only
  split
  · exact manage_ending_scheduler_eq _ _
  · rw [game_start_fold_flag]
    exact manage_ending_scheduler_eq _ _

/-- C10: heartbeat reconciliation is idempotent.  Running
`live_activity_heartbeat` a second time with the same
`(deviceId, clientHasSession)` pair (at any later time) returns the
state of the first run unchanged: every case either writes a state on
which the second run matches (`synced`), or writes nothing. -/
theorem heartbeat_idempotent (now1 now2 : ℚ) (st : AppState) (d : String)
    (b : Bool) :
    live_activity_heartbeat now2 (live_activity_heartbeat now1 st d b) d b
      = live_activity_heartbeat now1 st d b := by
  cases b with
  | true =>
    cases hb : Dict.get? st.active_live_activities d with
    | some a =>
      have h1 : live_activity_heartbeat now1 st d true = st := by
        unfold live_activity_heartbeat
        simp [hb]
      rw [h1]
      unfold live_activity_heartbeat
      simp [hb]
    | none =>
      cases hc : Dict.get? st.user_configs d with
      | some cfg =>
        have h1 : live_activity_heartbeat now1 st d true
            = { st with
                active_live_activities :=
                  Dict.insert st.active_live_activities d ⟨cfg, now1, now1⟩ } := by
          unfold live_activity_heartbeat
          simp [hb, hc]
        rw [h1]
        unfold live_activity_heartbeat
        simp [Dict.get?_insert_self]
      | none =>
        have h1 : live_activity_heartbeat now1 st d true = st := by
          unfold live_activity_heartbeat
          simp [hb, hc]
        rw [h1]
        unfold live_activity_heartbeat
        simp [hb, hc]
  | false =>
    cases hb : Dict.get? st.active_live_activities d with
    | none =>
      have h1 : live_activity_heartbeat now1 st d false = st := by
        unfold live_activity_heartbeat
        simp [hb]
      rw [h1]
      unfold live_activity_heartbeat
      simp [hb]
    | some a =>
      have h1 : live_activity_heartbeat now1 st d false
          = (stop_live_activity_by_id st d).1 := by
        unfold live_activity_heartbeat
        simp [hb]
      rw [h1]
      unfold live_activity_heartbeat
      simp [stop_self_none st d]

/-- C4 (amended): after a failed refresh the cache read returns the last
good (stale) value when one exists; when the fetch fails and nothing is
cached, the read does not propagate an error but returns a hard-coded
substitute: `[]` for rosters and `{"name": "Fantasy Football"}` for
league info. -/
theorem cache_fallback_behavior (env : CacheEnv) (league_id : String) :
    (∀ (rc : Dict String (ℚ × List Roster)) (t : ℚ) (v : List Roster),
        Dict.get? rc league_id = some (t, v) →
        ¬(env.now - t < LEAGUE_ROSTERS_CACHE_SECONDS) →
        env.fetch_rosters league_id = none →
        (get_cached_league_rosters env rc league_id).1 = v)
    ∧ (∀ (rc : Dict String (ℚ × List Roster)),
        Dict.get? rc league_id = none →
        env.fetch_rosters league_id = none →
        get_cached_league_rosters env rc league_id = ([], rc))
    ∧ (∀ (ic : Dict String (ℚ × LeagueInfo)) (t : ℚ) (v : LeagueInfo),
        Dict.get? ic league_id = some (t, v) →
        ¬(env.now - t < LEAGUE_INFO_CACHE_SECONDS) →
        env.fetch_league_info league_id = none →
        (get_cached_league_info env ic league_id).1 = v)
    ∧ (∀ (ic : Dict String (ℚ × LeagueInfo)),
        Dict.get? ic league_id = none →
        env.fetch_league_info league_id = none →
        get_cached_league_info env ic league_id = (fallback_league_info, ic)) := by
  refine ⟨?_, ?_, ?_, ?_⟩
  · intro rc t v hsome hstale hfail
    unfold get_cached_league_rosters
    simp only [hsome]
    rw [if_neg hstale]
    simp [hfail]
  · intro rc hnone hfail
    unfold get_cached_league_rosters
    simp [hnone, hfail]
  · intro ic t v hsome hstale hfail
    unfold get_cached_league_info
    simp only [hsome]
    rw [if_neg hstale]
    simp [hfail]
  · intro ic hnone hfail
    unfold get_cached_league_info
    simp [hnone, hfail]

/-- C4 witness: a stale roster entry survives a failed refresh, and a
cold cache with a failing fetch yields the substitutes. -/
theorem cache_fallback_behavior_witness :
    (get_cached_league_rosters cenvW [("L", (0, [rosterW]))] "L").1 = [rosterW]
    ∧ get_cached_league_rosters cenvW [] "L" = ([], [])
    ∧ (get_cached_league_info cenvW [("L", (0, fallback_league_info))] "L").1
        = fallback_league_info
    ∧ get_cached_league_info cenvW [] "L" = (fallback_league_info, []) := by
  have h := cache_fallback_behavior cenvW "L"
  refine ⟨?_, ?_, ?_, ?_⟩
  · exact h.1 [("L", (0, [rosterW]))] 0 [rosterW] rfl (by norm_num [cenvW, LEAGUE_ROSTERS_CACHE_SECONDS]) rfl
  · exact h.2.1 [] rfl rfl
  · exact h.2.2.1 [("L", (0, fallback_league_info))] 0 fallback_league_info rfl
      (by norm_num [cenvW, LEAGUE_INFO_CACHE_SECONDS]) rfl
  · exact h.2.2.2 [] rfl rfl

/-- C4 counterexample to the claim as stated: with a failing fetch and
an empty cache, both reads return a substitute value — the rosters read
returns `[]` and the league-info read returns the hard-coded
`{"name": "Fantasy Football"}` dict — instead of propagating a
`DataUnavailable` error to the caller. -/
theorem cache_miss_returns_substitute :
    (get_cached_league_rosters cenvFail [] "L").1 = []
    ∧ (get_cached_league_info cenvFail [] "L").1 = [("name", "Fantasy Football")] := by
  exact ⟨rfl, rfl⟩

/-- The code-side per-player default coincides with the spec-side
zero-for-missing lookup (scored field). -/
theorem score_or_zero_eq (env : Env) :
    score_or_zero env
      = fun pid => (Dict.getD env.player_stats_cache pid ⟨0, 0⟩).pts_ppr := by
  funext pid
  unfold score_or_zero Dict.getD
  cases h : Dict.get? env.player_stats_cache pid <;> simp

/-- The code-side per-player default coincides with the spec-side
zero-for-missing lookup (projected field). -/
theorem projection_or_zero_eq (env : Env) :
    projection_or_zero env
      = fun pid => (Dict.getD env.player_stats_cache pid ⟨0, 0⟩).projected_pts := by
  funext pid
  unfold projection_or_zero Dict.getD
  cases h : Dict.get? env.player_stats_cache pid <;> simp

/-- C3: `get_user_totals` refines the spec's aggregation contract: it
resolves the cached starter list (refreshing it from rosters when the
cache has no non-empty list), sums the snapshot's scored and projected
points over those ids with a missing id contributing zero to both
totals (never an error), and rounds each total to two decimal places. -/
theorem get_user_totals_refines_aggregate_spec (env : Env) (st : AppState)
    (d : String) :
    (get_user_totals env st d).1 = aggregate_spec env st d := by
  unfold get_user_totals aggregate_spec
  dsimp only
  rw [score_or_zero_eq, projection_or_zero_eq,
    foldl_pair_sum (fun pid => (Dict.getD env.player_stats_cache pid ⟨0, 0⟩).pts_ppr)
      (fun pid => (Dict.getD env.player_stats_cache pid ⟨0, 0⟩).projected_pts)]
  simp

/-- C5 (amended): when the session end fires for an active device, the
stop removes the device from the active-activity registry, the legacy
`last_scores` table and the live-activity-token table (submitting the
end notification exactly when a token was present), but it leaves the
previous-aggregate tables (`user_previous_pts_ppr`,
`last_projection_totals`) and the `previous_player_scores` table
completely untouched. -/
theorem stop_clears_registry_entries (st : AppState) (d : String) (act : Activity)
    (hact : Dict.get? st.active_live_activities d = some act) :
    Dict.get? (stop_live_activity_by_id st d).1.active_live_activities d = none
    ∧ Dict.get? (stop_live_activity_by_id st d).1.last_scores d = none
    ∧ Dict.get? (stop_live_activity_by_id st d).1.live_activity_tokens d = none
    ∧ (stop_live_activity_by_id st d).1.user_previous_pts_ppr = st.user_previous_pts_ppr
    ∧ (stop_live_activity_by_id st d).1.last_projection_totals = st.last_projection_totals
    ∧ (stop_live_activity_by_id st d).1.previous_player_scores = st.previous_player_scores
    ∧ (stop_live_activity_by_id st d).2 = (Dict.get? st.live_activity_tokens d).isSome := by
  unfold stop_live_activity_by_id
  simp [hact, Dict.get?_erase_self]

/-- C5 witness: the stop applied to the concrete active device. -/
theorem stop_clears_registry_entries_witness :
    Dict.get? (stop_live_activity_by_id stC5 "d").1.active_live_activities "d" = none
    ∧ Dict.get? (stop_live_activity_by_id stC5 "d").1.last_scores "d" = none
    ∧ Dict.get? (stop_live_activity_by_id stC5 "d").1.live_activity_tokens "d" = none
    ∧ (stop_live_activity_by_id stC5 "d").1.user_previous_pts_ppr = stC5.user_previous_pts_ppr
    ∧ (stop_live_activity_by_id stC5 "d").1.last_projection_totals = stC5.last_projection_totals
    ∧ (stop_live_activity_by_id stC5 "d").1.previous_player_scores = stC5.previous_player_scores
    ∧ (stop_live_activity_by_id stC5 "d").2 = (Dict.get? stC5.live_activity_tokens "d").isSome :=
  stop_clears_registry_entries stC5 "d" actC5 (by decide)

/-- C5 counterexample to the claim as stated: the schedule-driven end
fires for device `d` (its session is removed from the registry), yet the
per-device previous-aggregate and previous-per-player-score tables still
hold their entries for the device afterwards. -/
theorem schedule_end_leaves_previous_tables :
    Dict.get? (check_and_end_live_activities envC5 stC5).active_live_activities "d" = none
    ∧ Dict.get? (check_and_end_live_activities envC5 stC5).user_previous_pts_ppr "d" = some 5
    ∧ Dict.get? (check_and_end_live_activities envC5 stC5).last_projection_totals "d" = some 7
    ∧ Dict.get? (check_and_end_live_activities envC5 stC5).previous_player_scores "d"
        = some [("p1", 2)] := by
  decide

/-- C8: the TTL sweep force-ends an active session exactly when its age
strictly exceeds the day-of-week ceiling, independent of game state —
and the ceilings are 16 h on Sunday (`weekday = 6`), 8 h on Monday and
Thursday, and 6 h otherwise. -/
theorem ttl_sweep_exact (now : ℚ) (weekday : Nat) (st : AppState) (d : String)
    (act : Activity)
    (hnd : (st.active_live_activities.map Prod.fst).Nodup)
    (hact : Dict.get? st.active_live_activities d = some act) :
    (Dict.get? (cleanup_expired_live_activities now weekday st).active_live_activities d = none
      ↔ (ttl_max_age_hours weekday : ℚ) * 3600 < now - act.started_at)
    ∧ ttl_max_age_hours 6 = 16 ∧ ttl_max_age_hours 0 = 8 ∧ ttl_max_age_hours 3 = 8
    ∧ ttl_max_age_hours 1 = 6 ∧ ttl_max_age_hours 2 = 6
    ∧ ttl_max_age_hours 4 = 6 ∧ ttl_max_age_hours 5 = 6 := by
  refine ⟨?_, rfl, rfl, rfl, rfl, rfl, rfl, rfl⟩
  unfold cleanup_expired_live_activities
  dsimp only
  constructor
  · intro hnone
    by_contra hage
    have hnm : d ∉ (st.active_live_activities.filter
        (fun p => decide ((ttl_max_age_hours weekday : ℚ) * 3600 < now - p.2.started_at))).map
          Prod.fst := by
      intro hm
      rcases List.mem_map.mp hm with ⟨⟨p1, p2⟩, hpf, hp1⟩
      rcases List.mem_filter.mp hpf with ⟨hpmem, hpred⟩
      dsimp at hp1
      subst hp1
      have hv : p2 = act := by
        have hg := Dict.nodup_mem_get? hnd hpmem
        rw [hact] at hg
        exact ((Option.some.injEq _ _).mp hg).symm
      subst hv
      exact hage (of_decide_eq_true hpred)
    rw [stop_fold_not_mem _ _ _ hnm, hact] at hnone
    exact Option.noConfusion hnone
  · intro hage
    apply stop_fold_mem
    exact List.mem_map.mpr ⟨(d, act),
      List.mem_filter.mpr ⟨Dict.get?_eq_some_mem hact, decide_eq_true hage⟩, rfl⟩

/-- C8 witness: a session aged 17 hours at a Sunday sweep (ceiling 16 h)
is force-ended. -/
theorem ttl_sweep_exact_witness :
    Dict.get? (cleanup_expired_live_activities 61200 6 stW8).active_live_activities "d"
      = none :=
  (ttl_sweep_exact 61200 6 stW8 "d" actW8 (by decide) (by decide)).1.mpr
    (by norm_num [ttl_max_age_hours, actW8])

/-- C2: when both aggregate fields moved by less than the 0.01 epsilon
and every per-player scored delta over the scanned matchup roster is
below 0.1, the detector does not push. -/
theorem no_redundant_push (env : Env) (st : AppState) (d : String)
    (h1 : |(get_user_totals env st d).1.1 - Dict.getD st.user_previous_pts_ppr d 0| < 1/100)
    (h2 : |(get_user_totals env st d).1.2 - Dict.getD st.last_projection_totals d 0| < 1/100)
    (h3 : ∀ p ∈ detector_scanned_players env (get_user_totals env st d).2 d,
        player_point_diff env (Dict.getD st.previous_player_scores d []) p.1 < 1/10) :
    (update_single_live_activity_from_cache env st d).2.shouldPush = false := by
  obtain ⟨-, -, -, hprev, hproj, hscores, -⟩ := resolve_starter_ids_preserve env st d
  have htop : (get_top_scoring_player_from_matchup env (get_user_totals env st d).2 d).2.1
      < 1/10 := by
    unfold get_top_scoring_player_from_matchup
    dsimp only
    apply foldl_top_step_lt
    · norm_num
    · intro p hp
      rw [get_user_totals_snd, hscores]
      exact h3 p hp
  have hp1 : decide ((1 : ℚ)/100
      < |(get_user_totals env st d).1.1
          - Dict.getD (get_user_totals env st d).2.user_previous_pts_ppr d 0|) = false := by
    rw [get_user_totals_snd, hprev]
    exact decide_eq_false (lt_asymm h1)
  have hp2 : decide ((1 : ℚ)/100
      < |(get_user_totals env st d).1.2
          - Dict.getD (get_user_totals env st d).2.last_projection_totals d 0|) = false := by
    rw [get_user_totals_snd, hproj]
    exact decide_eq_false (lt_asymm h2)
  have hdd : decide ((1 : ℚ)/10
      < (get_top_scoring_player_from_matchup env (get_user_totals env st d).2 d).2.1)
        = false := decide_eq_false (lt_asymm htop)
  unfold update_single_live_activity_from_cache
  dsimp only
  rw [hp1, hp2, hdd]
  simp

/-- C2 witness: an empty state sees no aggregate movement and no
per-player delta, hence no push. -/
theorem no_redundant_push_witness :
    (update_single_live_activity_from_cache env0 st0 "d").2.shouldPush = false :=
  no_redundant_push env0 st0 "d"
    (by norm_num [get_user_totals, resolve_starter_ids, get_user_starter_player_ids,
      st0, env0, Dict.getD, Dict.get?, round2])
    (by norm_num [get_user_totals, resolve_starter_ids, get_user_starter_player_ids,
      st0, env0, Dict.getD, Dict.get?, round2])
    (by
      intro p hp
      simp [detector_scanned_players, get_user_totals, resolve_starter_ids,
        get_user_starter_player_ids, st0, env0, Dict.getD, Dict.get?] at hp)

/-- C1 (amended): when the detector resolves a truthy highlight name,
a largest per-player delta of at least 3.0 yields a push flagged
alert-worthy, and a largest delta strictly between 0.1 and 3.0 yields a
push with `isAlert = false`.  (A delta of exactly 0.1 does not by itself
trigger a push — the source compares with strict `>`; and a falsy
resolved name suppresses the highlight trigger entirely.) -/
theorem highlight_threshold_rule (env : Env) (st : AppState) (d : String)
    (name : Option String) (diff : ℚ) (isu : Bool)
    (htop : get_top_scoring_player_from_matchup env (get_user_totals env st d).2 d
      = (name, diff, isu))
    (hname : truthyOptStr name = true) :
    ((3 ≤ diff) →
      (update_single_live_activity_from_cache env st d).2.shouldPush = true
      ∧ (update_single_live_activity_from_cache env st d).2.isAlert = true)
    ∧ (1/10 < diff → diff < 3 →
      (update_single_live_activity_from_cache env st d).2.shouldPush = true
      ∧ (update_single_live_activity_from_cache env st d).2.isAlert = false) := by
  unfold update_single_live_activity_from_cache
  dsimp only
  rw [htop]
  dsimp only
  constructor
  · intro h3
    have hgt : (10 : ℚ)⁻¹ < diff := by
      rw [inv_eq_one_div]
      exact lt_of_lt_of_le (by norm_num) h3
    simp [hname, hgt, h3]
  · intro hlow hhigh
    have hlow' : (10 : ℚ)⁻¹ < diff := by
      rw [inv_eq_one_div]
      exact hlow
    simp [hname, hlow', not_le.mpr hhigh]

/-- C1 witness: a 4-point delta with a resolvable player name produces
an alert-worthy push. -/
theorem highlight_threshold_rule_witness :
    (update_single_live_activity_from_cache envW1 stW1 "d").2.shouldPush = true
    ∧ (update_single_live_activity_from_cache envW1 stW1 "d").2.isAlert = true :=
  (highlight_threshold_rule envW1 stW1 "d" (some "Alpha") 4 true
    (by norm_num [get_top_scoring_player_from_matchup, detector_scanned_players,
      get_user_totals, resolve_starter_ids, top_step, player_point_diff,
      resolve_player_name, stW1, envW1, st0, Dict.getD, Dict.get?])
    rfl).1 (by norm_num)

/-- C1 counterexample to the claim as stated: on this device the
largest per-player delta is exactly 0.1 — inside the claimed interval
`[0.1, 3.0)` — while the aggregates are unchanged, yet `shouldPush`
comes out `false` (the source requires `top_point_diff > 0.1`,
strictly). -/
theorem highlight_boundary_counterexample :
    (get_top_scoring_player_from_matchup envCE (get_user_totals envCE stCE "d").2 "d")
      = (some "Alpha", 1/10, true)
    ∧ (update_single_live_activity_from_cache envCE stCE "d").2.shouldPush = false := by
  constructor
  · simp only [get_top_scoring_player_from_matchup, detector_scanned_players,
      get_user_totals, resolve_starter_ids, top_step, player_point_diff,
      resolve_player_name, stCE, envCE, st0, Dict.getD, Dict.get?, String.reduceEq,
      List.foldl, List.map, List.isEmpty, Option.getD, beq_iff_eq, reduceIte]
    norm_num
  · simp only [update_single_live_activity_from_cache, get_top_scoring_player_from_matchup,
      detector_scanned_players, get_user_totals, resolve_starter_ids,
      get_user_starter_player_ids, top_step, player_point_diff, resolve_player_name,
      tracked_player_scores, tracked_player_ids, truthyOptStr,
      stCE, envCE, st0, Dict.getD, Dict.get?, Dict.insert, Dict.erase, round2,
      List.foldl, List.map, List.isEmpty, Option.getD, beq_iff_eq, String.reduceEq,
      reduceIte]
    norm_num [round_eq]

/-- C9: on every detector invocation — whether or not a push fires — the
stored per-player previous-score table for the device is replaced with
the scores computed from the current snapshot for the device's tracked
(combined) roster, and in that stored table every tracked player id maps
to its current snapshot score. -/
theorem previous_scores_updated_unconditionally (env : Env) (st : AppState)
    (d : String) :
    Dict.get? (update_single_live_activity_from_cache env st d).1.previous_player_scores d
      = some (tracked_player_scores env (get_user_totals env st d).2 d)
    ∧ ∀ pid ∈ tracked_player_ids env (get_user_totals env st d).2 d,
        Dict.get? (tracked_player_scores env (get_user_totals env st d).2 d) pid
          = some ((Dict.getD env.player_stats_cache pid ⟨0, 0⟩).pts_ppr) := by
  constructor
  · unfold update_single_live_activity_from_cache
    dsimp only
    split
    · split
      · exact Dict.get?_insert_self _ _ _
      · split
        · exact Dict.get?_insert_self _ _ _
        · exact Dict.get?_insert_self _ _ _
    · exact Dict.get?_insert_self _ _ _
  · intro pid hpid
    exact foldl_insert_get_mem
      (fun pid => (Dict.getD env.player_stats_cache pid ⟨0, 0⟩).pts_ppr)
      (tracked_player_ids env (get_user_totals env st d).2 d) [] pid hpid

/-- C9 witness: the concrete device's table is replaced and its starter
`u1` maps to the current 4-point snapshot score. -/
theorem previous_scores_updated_witness :
    Dict.get? (update_single_live_activity_from_cache envW1 stW1 "d").1.previous_player_scores "d"
      = some (tracked_player_scores envW1 (get_user_totals envW1 stW1 "d").2 "d")
    ∧ Dict.get? (tracked_player_scores envW1 (get_user_totals envW1 stW1 "d").2 "d") "u1"
        = some 4 := by
  refine ⟨(previous_scores_updated_unconditionally envW1 stW1 "d").1, ?_⟩
  have hmem : "u1" ∈ tracked_player_ids envW1 (get_user_totals envW1 stW1 "d").2 "d" := by
    simp [tracked_player_ids, get_user_totals, resolve_starter_ids, stW1, st0, envW1,
      Dict.getD, Dict.get?]
  have h := (previous_scores_updated_unconditionally envW1 stW1 "d").2 "u1" hmem
  rw [h]
  simp [envW1, Dict.getD, Dict.get?]

/-- A device appears in `get_users_with_players_in_games` only through
its registered config, a truthy league id, and a successful combined
roster overlap test against the starting games' teams. -/
theorem mem_get_users_with_players (env : Env) (st : AppState)
    (soon : List Game) (d : String)
    (hd : d ∈ get_users_with_players_in_games env st soon) :
    ∃ cfg lid, (d, cfg) ∈ st.user_configs ∧ cfg.league_id = some lid ∧
      device_game_overlap st.nfl_players (starting_teams soon) (env.rosters_of lid)
        (env.matchups_of lid
          (week_for_group (st.user_configs.filter (fun p => p.2.league_id == some lid))))
        cfg = true := by
  unfold get_users_with_players_in_games at hd
  dsimp only at hd
  by_cases hte : (starting_teams soon).isEmpty
  · rw [if_pos hte] at hd
    simp at hd
  · rw [if_neg hte] at hd
    rcases List.mem_flatMap.mp hd with ⟨g, hg, hdg⟩
    unfold users_by_league at hg
    dsimp only at hg
    rcases List.mem_map.mp hg with ⟨lid, hlid, hgeq⟩
    subst hgeq
    dsimp only at hdg
    rcases List.mem_filterMap.mp hdg with ⟨p, hpmem, hpeq⟩
    cases ho : device_game_overlap st.nfl_players (starting_teams soon)
        (env.rosters_of lid)
        (env.matchups_of lid
          (week_for_group (st.user_configs.filter (fun q => q.2.league_id == some lid))))
        p.2 with
    | false =>
      rw [ho] at hpeq
      simp at hpeq
    | true =>
      rw [ho] at hpeq
      simp only [if_true, Option.some.injEq, if_pos] at hpeq
      have hpc := List.mem_filter.mp hpmem
      refine ⟨p.2, lid, ?_, ?_, ?_⟩
      · rw [← hpeq]
        exact hpc.1
      · simpa [beq_iff_eq] using hpc.2
      · exact ho

/-- C6: a device whose combined roster (its players plus its current
opponent's players) has no player on a team in any game starting within
the 5-minute lead window is never transitioned from inactive to active
by the game-start check. -/
theorem no_overlap_never_starts (env : Env) (st : AppState) (d : String)
    (hno : ∀ cfg lid w, (d, cfg) ∈ st.user_configs → cfg.league_id = some lid →
        device_game_overlap st.nfl_players
          (starting_teams (games_starting_soon env.now st.nfl_games))
          (env.rosters_of lid) (env.matchups_of lid w) cfg = false)
    (hinactive : Dict.get? st.active_live_activities d = none) :
    Dict.get? (check_and_start_live_activities env st).active_live_activities d = none := by
  unfold check_and_start_live_activities
  dsimp only
  split
  · exact hinactive
  · apply game_start_fold_not_mem
    · intro hdmem
      have hm := mem_get_users_with_players env _ (games_starting_soon env.now st.nfl_games)
        d hdmem
      dsimp only at hm
      rcases hm with ⟨cfg, lid, hmem, hlid, hov⟩
      have hfalse := hno cfg lid
        (week_for_group (st.user_configs.filter (fun p => p.2.league_id == some lid)))
        hmem hlid
      rw [hfalse] at hov
      exact Bool.noConfusion hov
    · exact hinactive

/-- C6 witness: with no registered devices the overlap hypothesis holds
vacuously and the device stays inactive through a game-start check that
does see a game inside the lead window. -/
theorem no_overlap_never_starts_witness :
    Dict.get? (check_and_start_live_activities env0 stW6).active_live_activities "d"
      = none :=
  no_overlap_never_starts env0 stW6 "d"
    (fun _ _ _ hmem _ => absurd hmem (List.not_mem_nil _))
    rfl

end SleeperLA
